import Mathlib

/-!
Verification development for the Kava-Labs/opendb module (rocksdb build).

The definitions below are a shallow embedding of the Go sources:
`opendb.go` (configuration resolution, option overlays, database open,
metrics reporting loop) and `metrics.go` (prometheus gauge registration
and the per-tick report). External collaborators are modelled explicitly:
the host application option source is a function from key to optional
value, the spf13/cast coercions are reproduced as total functions, the
grocksdb option-loading call and the per-tick engine property reads are
inputs, and the prometheus sink receives publish events.
-/

namespace Opendb

/-! ### Go string primitives

Executable models of the Go standard-library string operations the code
uses (strings.Split, strings.HasPrefix, strconv parsing), written over
character lists so that every definition evaluates inside the kernel. -/

/-- Splits a character list at every occurrence of the separator, keeping
empty segments, as Go strings.Split does. -/
def splitOnCharAux (sep : Char) : List Char → List Char → List (List Char)
  | [], acc => [acc.reverse]
  | c :: rest, acc =>
    if c = sep then acc.reverse :: splitOnCharAux sep rest []
    else splitOnCharAux sep rest (c :: acc)

/-- Entry point of the splitter: no accumulated segment yet. -/
def splitOnChar (sep : Char) (cs : List Char) : List (List Char) :=
  splitOnCharAux sep cs []

/-- Go strings.Split on a single-character separator. -/
def goSplit (s : String) (sep : Char) : List String :=
  (splitOnChar sep s.data).map String.mk

/-- Decides whether the first list is a prefix of the second. -/
def isPrefixOfChars : List Char → List Char → Bool
  | [], _ => true
  | _ :: _, [] => false
  | a :: as, b :: bs => a = b && isPrefixOfChars as bs

/-- Go strings.HasPrefix. -/
def goHasPrefix (s pre : String) : Bool :=
  isPrefixOfChars pre.data s.data

/-- Reads a run of decimal digits as a natural number; fails on any
non-digit character. -/
def digitsToNatAux : List Char → Nat → Option Nat
  | [], acc => some acc
  | c :: rest, acc =>
    if c.isDigit then digitsToNatAux rest (acc * 10 + (c.toNat - 48))
    else none

/-- Parses a non-empty all-digit character list as a natural number. -/
def parseNatChars (cs : List Char) : Option Nat :=
  match cs with
  | [] => none
  | _ => digitsToNatAux cs 0

/-- Go strconv integer parsing on plain decimal strings with an optional
leading minus sign; anything else fails. -/
def goParseInt (s : String) : Option Int :=
  match s.data with
  | '-' :: rest => (parseNatChars rest).map (fun n => -(n : Int))
  | cs => (parseNatChars cs).map (fun n => (n : Int))

/-- Go strconv unsigned parsing: plain decimal digits only. -/
def goParseUint (s : String) : Option Nat :=
  parseNatChars s.data

/-- Go strconv.ParseFloat restricted to plain decimal literals with an
optional sign and an optional fractional part; the value is kept exactly
as a rational number. -/
def goParseFloat (s : String) : Option Rat :=
  let signAndBody : Int × List Char :=
    match s.data with
    | '-' :: rest => (-1, rest)
    | cs => (1, cs)
  match splitOnChar '.' signAndBody.2 with
  | [ip] => (parseNatChars ip).map (fun n => (signAndBody.1 : Rat) * (n : Rat))
  | [ip, fp] =>
    match parseNatChars ip, parseNatChars fp with
    | some n, some f =>
      some ((signAndBody.1 : Rat) * ((n : Rat) + (f : Rat) / ((10 : Rat) ^ fp.length)))
    | _, _ => none
  | _ => none

/-- Go strconv.ParseBool: the exact set of accepted literals. -/
def goParseBool (s : String) : Option Bool :=
  if s = "1" ∨ s = "t" ∨ s = "T" ∨ s = "TRUE" ∨ s = "true" ∨ s = "True" then some true
  else if s = "0" ∨ s = "f" ∨ s = "F" ∨ s = "FALSE" ∨ s = "false" ∨ s = "False" then some false
  else none

/-! ### Dynamic option values and the spf13/cast coercions

The host application exposes a single Get operation on string keys; a
returned value is one of the dynamic shapes below, and absence models a
nil interface value.
The cast.ToXxx helpers used by the code are the non-erroring variants:
on any value they cannot convert they return the zero value of the
target type, never an error. -/

/-- Dynamic value handed back by the application option source. -/
inductive GoValue where
  | goInt (i : Int)
  | goBool (b : Bool)
  | goString (s : String)
  | goFloat (q : Rat)
deriving DecidableEq, Repr

/-- AppOptions interface: one operation, Get, returning an optional
dynamic value (none models a nil interface value). -/
def AppOptions : Type := String → Option GoValue

/-- Truncation of a rational toward zero, as Go float-to-int conversion. -/
def ratTrunc (q : Rat) : Int := q.num / (q.den : Int)

/-- Models cast.ToInt / cast.ToInt64: zero on nil or non-coercible input. -/
def castToInt : Option GoValue → Int
  | none => 0
  | some (.goInt i) => i
  | some (.goBool b) => if b then 1 else 0
  | some (.goString s) => (goParseInt s).getD 0
  | some (.goFloat q) => ratTrunc q

/-- Models cast.ToInt64, identical to the ToInt model at this width. -/
def castToInt64 : Option GoValue → Int := castToInt

/-- Models cast.ToUint64: zero on nil, negative, or non-coercible input. -/
def castToUint64 : Option GoValue → Nat
  | none => 0
  | some (.goInt i) => if i < 0 then 0 else i.toNat
  | some (.goBool b) => if b then 1 else 0
  | some (.goString s) => (goParseUint s).getD 0
  | some (.goFloat q) => if q < 0 then 0 else (ratTrunc q).toNat

/-- Models cast.ToBool: false on nil or non-coercible input. -/
def castToBool : Option GoValue → Bool
  | none => false
  | some (.goBool b) => b
  | some (.goInt i) => i != 0
  | some (.goString s) => (goParseBool s).getD false
  | some (.goFloat _) => false

/-- Models cast.ToFloat64: zero on nil or non-coercible input. -/
def castToFloat64 : Option GoValue → Rat
  | none => 0
  | some (.goFloat q) => q
  | some (.goInt i) => (i : Rat)
  | some (.goBool b) => if b then 1 else 0
  | some (.goString s) => (goParseFloat s).getD 0

/-! ### Option name constants from opendb.go -/

def defaultBlockCacheSize : Nat := 1 <<< 30

def DefaultColumnFamilyName : String := "default"

def enableMetricsOptName : String := "enable-metrics"

def reportMetricsIntervalSecsOptName : String := "report-metrics-interval-secs"

def defaultReportMetricsIntervalSecs : Int := 15

def maxOpenFilesDBOptName : String := "max-open-files"

def maxFileOpeningThreadsDBOptName : String := "max-file-opening-threads"

def tableCacheNumshardbitsDBOptName : String := "table_cache_numshardbits"

def allowMMAPWritesDBOptName : String := "allow_mmap_writes"

def allowMMAPReadsDBOptName : String := "allow_mmap_reads"

def useFsyncDBOptName : String := "use_fsync"

def useAdaptiveMutexDBOptName : String := "use_adaptive_mutex"

def bytesPerSyncDBOptName : String := "bytes_per_sync"

def maxBackgroundJobsDBOptName : String := "max-background-jobs"

def writeBufferSizeCFOptName : String := "write-buffer-size"

def numLevelsCFOptName : String := "num-levels"

def maxWriteBufferNumberCFOptName : String := "max_write_buffer_number"

def minWriteBufferNumberToMergeCFOptName : String := "min_write_buffer_number_to_merge"

def maxBytesForLevelBaseCFOptName : String := "max_bytes_for_level_base"

def maxBytesForLevelMultiplierCFOptName : String := "max_bytes_for_level_multiplier"

def targetFileSizeBaseCFOptName : String := "target_file_size_base"

def targetFileSizeMultiplierCFOptName : String := "target_file_size_multiplier"

def level0FileNumCompactionTriggerCFOptName : String := "level0_file_num_compaction_trigger"

def level0SlowdownWritesTriggerCFOptName : String := "level0_slowdown_writes_trigger"

def blockCacheSizeBBTOOptName : String := "block_cache_size"

def bitsPerKeyBBTOOptName : String := "bits_per_key"

def blockSizeBBTOOptName : String := "block_size"

def cacheIndexAndFilterBlocksBBTOOptName : String := "cache_index_and_filter_blocks"

def pinL0FilterAndIndexBlocksInCacheBBTOOptName : String := "pin_l0_filter_and_index_blocks_in_cache"

def formatVersionBBTOOptName : String := "format_version"

def asyncIOReadOptName : String := "read-async-io"

/-! ### Config Resolver: rocksDBOptions -/

/-- rocksDBOptions wraps another AppOptions and a database name; it
implements AppOptions taking the database name into account. -/
structure rocksDBOptions where
  appOpts : AppOptions
  dbName : String

/-- Constructor newRocksDBOptions from opendb.go. -/
def newRocksDBOptions (appOpts : AppOptions) (dbName : String) : rocksDBOptions :=
  { appOpts := appOpts, dbName := dbName }

/-- Get constructs database-specific and fallback keys and uses them to
get a value from the underlying AppOptions; the database-specific key
takes precedence over the fallback key. Mirrors rocksDBOptions.Get:
the Sprintf calls become string concatenation, the nil check on the
first lookup becomes an isSome check. -/
def rocksDBOptions.Get (opts : rocksDBOptions) (key : String) : Option GoValue :=
  let dbSpecificKey := "rocksdb." ++ opts.dbName ++ "." ++ key
  if (opts.appOpts dbSpecificKey).isSome then opts.appOpts dbSpecificKey
  else
    let fallbackKey := "rocksdb." ++ key
    opts.appOpts fallbackKey

/-! ### Statistics Text Parser

The parser source file is not part of the sources given here; only its
caller getPropsAndStats is. The definitions in this section are
therefore modelled from the spec. -/

/-- One parsed statistic: either a scalar counter or a histogram with
four percentiles, a count, and an optional sum (absent when the line
carries no SUM field; absent is distinct from zero). -/
inductive StatEntry where
  | counter (value : Nat)
  | histogram (p50 p95 p99 p100 : Rat) (count : Nat) (sum : Option Nat)
deriving DecidableEq, Repr

/-- Snapshot mapping from metric name to parsed entry. -/
def StatMap : Type := List (String × StatEntry)

instance : DecidableEq StatMap := by
  unfold StatMap
  infer_instance

instance : Append StatMap := by
  unfold StatMap
  infer_instance

instance : Repr StatMap := by
  unfold StatMap
  infer_instance

/-- Modelled from the spec: parses one statistics line. A counter line
has the shape name COUNT : integer; a histogram line has the shape
name P50 : float P95 : float P99 : float P100 : float COUNT : integer,
optionally followed by SUM : integer. Fields are separated by
whitespace; a line that fits neither shape is malformed and yields
none. -/
def parseSerializedStat (line : String) : Option (String × StatEntry) :=
  let tokens := (goSplit line ' ').filter (fun t => t ≠ "")
  match tokens with
  | [name, "COUNT", ":", v] =>
    (parseNatChars v.data).map (fun n => (name, StatEntry.counter n))
  | [name, "P50", ":", a, "P95", ":", b, "P99", ":", c, "P100", ":", d, "COUNT", ":", n] =>
    match goParseFloat a, goParseFloat b, goParseFloat c, goParseFloat d, parseNatChars n.data with
    | some qa, some qb, some qc, some qd, some cnt =>
      some (name, StatEntry.histogram qa qb qc qd cnt none)
    | _, _, _, _, _ => none
  | [name, "P50", ":", a, "P95", ":", b, "P99", ":", c, "P100", ":", d,
     "COUNT", ":", n, "SUM", ":", s] =>
    match goParseFloat a, goParseFloat b, goParseFloat c, goParseFloat d,
        parseNatChars n.data, parseNatChars s.data with
    | some qa, some qb, some qc, some qd, some cnt, some sm =>
      some (name, StatEntry.histogram qa qb qc qd cnt (some sm))
    | _, _, _, _, _, _ => none
  | _ => none

/-- Modelled from the spec: parses a list of statistics lines, skipping
every malformed line (a single malformed line must not abort parsing of
the remaining blob); blank lines produce no tokens and are skipped the
same way. -/
def parseStatsLines (lines : List String) : StatMap :=
  lines.filterMap parseSerializedStat

/-- Modelled from the spec: parseSerializedStats splits the blob into
lines and parses each one, skipping malformed lines; with the
skip-and-continue design decision in force it never fails. -/
def parseSerializedStats (serializedStats : String) : Except String StatMap :=
  .ok (parseStatsLines (goSplit serializedStats '\n'))

/-! ### Properties Loader and Stat Loader

Both loader source files are absent from the sources given here; the
definitions below are modelled from the spec. -/

/-- Fixed record of named introspection properties read once per tick;
the field set is the one consumed by Metrics.report plus the raw
statistics text consumed by getPropsAndStats. -/
structure properties where
  EstimateNumKeys : Nat
  BlockCacheUsage : Nat
  EstimateTableReadersMem : Nat
  CurSizeAllMemTables : Nat
  BlockCachePinnedUsage : Nat
  OptionsStatistics : String
deriving DecidableEq, Repr

/-- Modelled from the spec: the Properties Loader issues the property
reads against the engine each tick with no caching; we model the
engine response for one tick as the input, and load fails exactly when
a required property is unavailable in that response. -/
def propsLoader.load (engineResponse : Except String properties) : Except String properties :=
  engineResponse

/-- Modelled from the spec: the Stat Loader resolves the recognized
metric names against the parsed snapshot; an absent entry is skipped at
publish time rather than failing the load, so loading returns the
snapshot it will publish from. -/
def statLoader.load (statMap : StatMap) : Except String StatMap :=
  .ok statMap

/-- getPropsAndStats from opendb.go: loads properties, parses the
serialized statistics blob, loads typed stats; the first failing step
aborts the tick with its error. -/
def getPropsAndStats (engineResponse : Except String properties) :
    Except String (properties × StatMap) :=
  match propsLoader.load engineResponse with
  | .error e => .error e
  | .ok props =>
    match parseSerializedStats props.OptionsStatistics with
    | .error e => .error e
    | .ok statMap =>
      match statLoader.load statMap with
      | .error e => .error e
      | .ok stats => .ok (props, stats)

/-! ### Metrics registry: metrics.go -/

/-- Label name attached to every gauge. -/
def dbNameMetricLabelName : String := "db_name"

/-- Static description of one prometheus gauge: the GaugeOpts fields
passed to prometheus.NewGaugeFrom plus the label list. -/
structure GaugeSpec where
  Namespace : String
  Subsystem : String
  Name : String
  Help : String
  labels : List String
deriving DecidableEq, Repr

/-- Metrics holds every rocksdb gauge reported to prometheus, one field
per gauge, exactly as the Go struct. -/
structure Metrics where
  NumberKeysWritten : GaugeSpec
  NumberKeysRead : GaugeSpec
  NumberKeysUpdated : GaugeSpec
  EstimateNumKeys : GaugeSpec
  NumberFileOpens : GaugeSpec
  NumberFileErrors : GaugeSpec
  BlockCacheUsage : GaugeSpec
  EstimateTableReadersMem : GaugeSpec
  CurSizeAllMemTables : GaugeSpec
  BlockCachePinnedUsage : GaugeSpec
  BlockCacheMiss : GaugeSpec
  BlockCacheHit : GaugeSpec
  BlockCacheAdd : GaugeSpec
  BlockCacheAddFailures : GaugeSpec
  BlockCacheIndexMiss : GaugeSpec
  BlockCacheIndexHit : GaugeSpec
  BlockCacheIndexBytesInsert : GaugeSpec
  BlockCacheFilterMiss : GaugeSpec
  BlockCacheFilterHit : GaugeSpec
  BlockCacheFilterBytesInsert : GaugeSpec
  BlockCacheDataMiss : GaugeSpec
  BlockCacheDataHit : GaugeSpec
  BlockCacheDataBytesInsert : GaugeSpec
  DBGetMicrosP50 : GaugeSpec
  DBGetMicrosP95 : GaugeSpec
  DBGetMicrosP99 : GaugeSpec
  DBGetMicrosP100 : GaugeSpec
  DBGetMicrosCount : GaugeSpec
  DBWriteMicrosP50 : GaugeSpec
  DBWriteMicrosP95 : GaugeSpec
  DBWriteMicrosP99 : GaugeSpec
  DBWriteMicrosP100 : GaugeSpec
  DBWriteMicrosCount : GaugeSpec
  StallMicros : GaugeSpec
  DBWriteStallP50 : GaugeSpec
  DBWriteStallP95 : GaugeSpec
  DBWriteStallP99 : GaugeSpec
  DBWriteStallP100 : GaugeSpec
  DBWriteStallCount : GaugeSpec
  DBWriteStallSum : GaugeSpec
  BloomFilterUseful : GaugeSpec
  BloomFilterFullPositive : GaugeSpec
  BloomFilterFullTruePositive : GaugeSpec
  LastLevelReadBytes : GaugeSpec
  LastLevelReadCount : GaugeSpec
  NonLastLevelReadBytes : GaugeSpec
  NonLastLevelReadCount : GaugeSpec
  GetHitL0 : GaugeSpec
  GetHitL1 : GaugeSpec
  GetHitL2AndUp : GaugeSpec
deriving DecidableEq, Repr

/-- Models prometheus.NewGaugeFrom inside registerMetrics: the local
namespace and label list of registerMetrics are fixed, the subsystem,
name, and help text vary per gauge. -/
def newGaugeFrom (Subsystem Name Help : String) : GaugeSpec :=
  { Namespace := "rocksdb_v2"
    Subsystem := Subsystem
    Name := Name
    Help := Help
    labels := [dbNameMetricLabelName] }

/-- The Metrics value built by the first effective call of
registerMetrics, gauge by gauge as in metrics.go. -/
def newMetricsInstance : Metrics :=
  { NumberKeysWritten := newGaugeFrom "key" "number_keys_written" ""
    NumberKeysRead := newGaugeFrom "key" "number_keys_read" ""
    NumberKeysUpdated := newGaugeFrom "key" "number_keys_updated" ""
    EstimateNumKeys := newGaugeFrom "key" "estimate_num_keys"
      "estimated number of total keys in the active and unflushed immutable memtables and storage"
    NumberFileOpens := newGaugeFrom "file" "number_file_opens" ""
    NumberFileErrors := newGaugeFrom "file" "number_file_errors" ""
    BlockCacheUsage := newGaugeFrom "memory" "block_cache_usage"
      "memory size for the entries residing in block cache"
    EstimateTableReadersMem := newGaugeFrom "memory" "estimate_table_readers_mem"
      "estimated memory used for reading SST tables, excluding memory used in block cache (e.g., filter and index blocks)"
    CurSizeAllMemTables := newGaugeFrom "memory" "cur_size_all_mem_tables"
      "approximate size of active and unflushed immutable memtables (bytes)"
    BlockCachePinnedUsage := newGaugeFrom "memory" "block_cache_pinned_usage"
      "returns the memory size for the entries being pinned"
    BlockCacheMiss := newGaugeFrom "cache" "block_cache_miss"
      "block_cache_miss == block_cache_index_miss + block_cache_filter_miss + block_cache_data_miss"
    BlockCacheHit := newGaugeFrom "cache" "block_cache_hit"
      "block_cache_hit == block_cache_index_hit + block_cache_filter_hit + block_cache_data_hit"
    BlockCacheAdd := newGaugeFrom "cache" "block_cache_add"
      "number of blocks added to block cache"
    BlockCacheAddFailures := newGaugeFrom "cache" "block_cache_add_failures"
      "number of failures when adding blocks to block cache"
    BlockCacheIndexMiss := newGaugeFrom "detailed_cache" "block_cache_index_miss" ""
    BlockCacheIndexHit := newGaugeFrom "detailed_cache" "block_cache_index_hit" ""
    BlockCacheIndexBytesInsert := newGaugeFrom "detailed_cache" "block_cache_index_bytes_insert" ""
    BlockCacheFilterMiss := newGaugeFrom "detailed_cache" "block_cache_filter_miss" ""
    BlockCacheFilterHit := newGaugeFrom "detailed_cache" "block_cache_filter_hit" ""
    BlockCacheFilterBytesInsert := newGaugeFrom "detailed_cache" "block_cache_filter_bytes_insert" ""
    BlockCacheDataMiss := newGaugeFrom "detailed_cache" "block_cache_data_miss" ""
    BlockCacheDataHit := newGaugeFrom "detailed_cache" "block_cache_data_hit" ""
    BlockCacheDataBytesInsert := newGaugeFrom "detailed_cache" "block_cache_data_bytes_insert" ""
    DBGetMicrosP50 := newGaugeFrom "latency" "db_get_micros_p50" ""
    DBGetMicrosP95 := newGaugeFrom "latency" "db_get_micros_p95" ""
    DBGetMicrosP99 := newGaugeFrom "latency" "db_get_micros_p99" ""
    DBGetMicrosP100 := newGaugeFrom "latency" "db_get_micros_p100" ""
    DBGetMicrosCount := newGaugeFrom "latency" "db_get_micros_count" ""
    DBWriteMicrosP50 := newGaugeFrom "latency" "db_write_micros_p50" ""
    DBWriteMicrosP95 := newGaugeFrom "latency" "db_write_micros_p95" ""
    DBWriteMicrosP99 := newGaugeFrom "latency" "db_write_micros_p99" ""
    DBWriteMicrosP100 := newGaugeFrom "latency" "db_write_micros_p100" ""
    DBWriteMicrosCount := newGaugeFrom "latency" "db_write_micros_count" ""
    StallMicros := newGaugeFrom "stall" "stall_micros"
      "Writer has to wait for compaction or flush to finish."
    DBWriteStallP50 := newGaugeFrom "stall" "db_write_stall_p50" ""
    DBWriteStallP95 := newGaugeFrom "stall" "db_write_stall_p95" ""
    DBWriteStallP99 := newGaugeFrom "stall" "db_write_stall_p99" ""
    DBWriteStallP100 := newGaugeFrom "stall" "db_write_stall_p100" ""
    DBWriteStallCount := newGaugeFrom "stall" "db_write_stall_count" ""
    DBWriteStallSum := newGaugeFrom "stall" "db_write_stall_sum" ""
    BloomFilterUseful := newGaugeFrom "filter" "bloom_filter_useful"
      "number of times bloom filter has avoided file reads, i.e., negatives."
    BloomFilterFullPositive := newGaugeFrom "filter" "bloom_filter_full_positive"
      "number of times bloom FullFilter has not avoided the reads."
    BloomFilterFullTruePositive := newGaugeFrom "filter" "bloom_filter_full_true_positive"
      "number of times bloom FullFilter has not avoided the reads and data actually exist."
    LastLevelReadBytes := newGaugeFrom "lsm" "last_level_read_bytes" ""
    LastLevelReadCount := newGaugeFrom "lsm" "last_level_read_count" ""
    NonLastLevelReadBytes := newGaugeFrom "lsm" "non_last_level_read_bytes" ""
    NonLastLevelReadCount := newGaugeFrom "lsm" "non_last_level_read_count" ""
    GetHitL0 := newGaugeFrom "lsm" "get_hit_l0"
      "number of Get() queries served by L0"
    GetHitL1 := newGaugeFrom "lsm" "get_hit_l1"
      "number of Get() queries served by L1"
    GetHitL2AndUp := newGaugeFrom "lsm" "get_hit_l2_and_up"
      "number of Get() queries served by L2 and up" }

/-- registerMetrics from metrics.go: the process-wide rocksdbMetrics
variable is the explicit state; when it is already set the call returns
immediately, otherwise it is initialized with the gauge registry. -/
def registerMetrics (rocksdbMetrics : Option Metrics) : Option Metrics :=
  match rocksdbMetrics with
  | some m => some m
  | none => some newMetricsInstance

/-- Every gauge field of a Metrics value, in declaration order. -/
def metricsFields (m : Metrics) : List GaugeSpec :=
  [m.NumberKeysWritten, m.NumberKeysRead, m.NumberKeysUpdated, m.EstimateNumKeys,
   m.NumberFileOpens, m.NumberFileErrors,
   m.BlockCacheUsage, m.EstimateTableReadersMem, m.CurSizeAllMemTables, m.BlockCachePinnedUsage,
   m.BlockCacheMiss, m.BlockCacheHit, m.BlockCacheAdd, m.BlockCacheAddFailures,
   m.BlockCacheIndexMiss, m.BlockCacheIndexHit, m.BlockCacheIndexBytesInsert,
   m.BlockCacheFilterMiss, m.BlockCacheFilterHit, m.BlockCacheFilterBytesInsert,
   m.BlockCacheDataMiss, m.BlockCacheDataHit, m.BlockCacheDataBytesInsert,
   m.DBGetMicrosP50, m.DBGetMicrosP95, m.DBGetMicrosP99, m.DBGetMicrosP100, m.DBGetMicrosCount,
   m.DBWriteMicrosP50, m.DBWriteMicrosP95, m.DBWriteMicrosP99, m.DBWriteMicrosP100,
   m.DBWriteMicrosCount,
   m.StallMicros,
   m.DBWriteStallP50, m.DBWriteStallP95, m.DBWriteStallP99, m.DBWriteStallP100,
   m.DBWriteStallCount, m.DBWriteStallSum,
   m.BloomFilterUseful, m.BloomFilterFullPositive, m.BloomFilterFullTruePositive,
   m.LastLevelReadBytes, m.LastLevelReadCount, m.NonLastLevelReadBytes, m.NonLastLevelReadCount,
   m.GetHitL0, m.GetHitL1, m.GetHitL2AndUp]

/-- The gauges registered by the first effective registerMetrics call. -/
def registeredGauges : List GaugeSpec :=
  match registerMetrics none with
  | some m => metricsFields m
  | none => []

/-! ### Metrics Reporter: reportMetrics in opendb.go -/

/-- One publication to the metrics sink: Metrics.report pushes every
gauge for the named database from the given properties and stats
snapshot; the event records what was pushed. -/
structure PublishEvent where
  dbName : String
  props : properties
  stats : StatMap
deriving DecidableEq, Repr

/-- Models Metrics.report from metrics.go: the per-gauge Set calls on
the external sink are recorded as one publish event carrying the
database label and the snapshots every gauge value is drawn from. -/
def Metrics.report (_m : Metrics) (dbName : String) (props : properties) (stats : StatMap) :
    PublishEvent :=
  { dbName := dbName, props := props, stats := stats }

/-- Body of one tick of reportMetrics: call getPropsAndStats; on error
continue to the next tick publishing nothing; if the process-wide
registry is nil continue as well; otherwise report. -/
def reportMetricsTick (rocksdbMetrics : Option Metrics) (dbName : String)
    (engineResponse : Except String properties) : Option PublishEvent :=
  match getPropsAndStats engineResponse with
  | .error _ => none
  | .ok (props, stats) =>
    match rocksdbMetrics with
    | none => none
    | some m => m.report dbName props stats

/-- reportMetrics from opendb.go: a ticker with the fixed interval is
created once and never reset; each tick runs the tick body on that
tick's engine response. The result pairs the ticker period with the
per-tick publications. -/
def reportMetrics (rocksdbMetrics : Option Metrics) (dbName : String) (interval : Int)
    (engineResponses : List (Except String properties)) : Int × List (Option PublishEvent) :=
  (interval, engineResponses.map (reportMetricsTick rocksdbMetrics dbName))

/-! ### Engine option bundles

Shallow model of the grocksdb option objects: each bundle is a record
of the fields the code can set, and every setter call becomes a record
update. Engine-native default values that the code never reads are
abstracted as fixed placeholder constants. -/

/-- Block-based table options: the fields touched by defaultBBTO and
bbtoFromAppOpts. Installing a new LRU cache or bloom filter is recorded
by its defining parameter (capacity, bits per key). -/
structure BlockBasedTableOptions where
  blockCacheSize : Nat
  bloomFilterBitsPerKey : Rat
  blockSize : Int
  cacheIndexAndFilterBlocks : Bool
  pinL0FilterAndIndexBlocksInCache : Bool
  formatVersion : Int
deriving DecidableEq, Repr

/-- Engine-native defaults of NewDefaultBlockBasedTableOptions,
abstracted: no claim depends on these values. -/
def NewDefaultBlockBasedTableOptions : BlockBasedTableOptions :=
  { blockCacheSize := 0
    bloomFilterBitsPerKey := 0
    blockSize := 4096
    cacheIndexAndFilterBlocks := false
    pinL0FilterAndIndexBlocksInCache := false
    formatVersion := 2 }

/-- defaultBBTO from opendb.go: default table options with a block
cache of defaultBlockCacheSize and a bloom filter of 10 bits per key. -/
def defaultBBTO : BlockBasedTableOptions :=
  let bbto := NewDefaultBlockBasedTableOptions
  let bbto := { bbto with blockCacheSize := defaultBlockCacheSize }
  { bbto with bloomFilterBitsPerKey := 10 }

/-- Engine options record: the fields settable through overrideDBOpts,
overrideCFOpts, newDefaultOptions, and the open path. One record models
the grocksdb Options object used both for database-level and
column-family-level options. -/
structure Options where
  maxOpenFiles : Int
  maxFileOpeningThreads : Int
  tableCacheNumshardbits : Int
  allowMmapWrites : Bool
  allowMmapReads : Bool
  useFsync : Bool
  useAdaptiveMutex : Bool
  bytesPerSync : Nat
  maxBackgroundJobs : Int
  writeBufferSize : Nat
  numLevels : Int
  maxWriteBufferNumber : Int
  minWriteBufferNumberToMerge : Int
  maxBytesForLevelBase : Nat
  maxBytesForLevelMultiplier : Rat
  targetFileSizeBase : Nat
  targetFileSizeMultiplier : Int
  level0FileNumCompactionTrigger : Int
  level0SlowdownWritesTrigger : Int
  blockBasedTableFactory : BlockBasedTableOptions
  createIfMissing : Bool
  parallelism : Int
  optimizeLevelStyleCompactionBudget : Nat
  statisticsEnabled : Bool
deriving DecidableEq, Repr

/-- Environment-dependent processor count used by IncreaseParallelism;
abstracted as a fixed constant, no claim depends on it. -/
def runtimeNumCPU : Int := 1

/-- Engine-native defaults of grocksdb.NewDefaultOptions, abstracted:
no claim depends on these values. -/
def NewDefaultOptions : Options :=
  { maxOpenFiles := -1
    maxFileOpeningThreads := 16
    tableCacheNumshardbits := 6
    allowMmapWrites := false
    allowMmapReads := false
    useFsync := false
    useAdaptiveMutex := false
    bytesPerSync := 0
    maxBackgroundJobs := 2
    writeBufferSize := 67108864
    numLevels := 7
    maxWriteBufferNumber := 2
    minWriteBufferNumberToMerge := 1
    maxBytesForLevelBase := 268435456
    maxBytesForLevelMultiplier := 10
    targetFileSizeBase := 67108864
    targetFileSizeMultiplier := 1
    level0FileNumCompactionTrigger := 4
    level0SlowdownWritesTrigger := 20
    blockBasedTableFactory := NewDefaultBlockBasedTableOptions
    createIfMissing := false
    parallelism := 1
    optimizeLevelStyleCompactionBudget := 0
    statisticsEnabled := false }

/-- newDefaultOptions from opendb.go: default tm-db options for
RocksDB. -/
def newDefaultOptions : Options :=
  let bbto := defaultBBTO
  let opts := NewDefaultOptions
  let opts := { opts with blockBasedTableFactory := bbto }
  let opts := { opts with maxOpenFiles := 4096 }
  let opts := { opts with createIfMissing := true }
  let opts := { opts with parallelism := runtimeNumCPU }
  { opts with optimizeLevelStyleCompactionBudget := 512 * 1024 * 1024 }

/-- overrideDBOpts from opendb.go: merges dbOpts and appOpts, appOpts
takes precedence; each option is overridden only when it is explicitly
present in appOpts. -/
def overrideDBOpts (dbOpts : Options) (appOpts : AppOptions) : Options :=
  let dbOpts := match appOpts maxOpenFilesDBOptName with
    | some v => { dbOpts with maxOpenFiles := castToInt (some v) }
    | none => dbOpts
  let dbOpts := match appOpts maxFileOpeningThreadsDBOptName with
    | some v => { dbOpts with maxFileOpeningThreads := castToInt (some v) }
    | none => dbOpts
  let dbOpts := match appOpts tableCacheNumshardbitsDBOptName with
    | some v => { dbOpts with tableCacheNumshardbits := castToInt (some v) }
    | none => dbOpts
  let dbOpts := match appOpts allowMMAPWritesDBOptName with
    | some v => { dbOpts with allowMmapWrites := castToBool (some v) }
    | none => dbOpts
  let dbOpts := match appOpts allowMMAPReadsDBOptName with
    | some v => { dbOpts with allowMmapReads := castToBool (some v) }
    | none => dbOpts
  let dbOpts := match appOpts useFsyncDBOptName with
    | some v => { dbOpts with useFsync := castToBool (some v) }
    | none => dbOpts
  let dbOpts := match appOpts useAdaptiveMutexDBOptName with
    | some v => { dbOpts with useAdaptiveMutex := castToBool (some v) }
    | none => dbOpts
  let dbOpts := match appOpts bytesPerSyncDBOptName with
    | some v => { dbOpts with bytesPerSync := castToUint64 (some v) }
    | none => dbOpts
  match appOpts maxBackgroundJobsDBOptName with
  | some v => { dbOpts with maxBackgroundJobs := castToInt (some v) }
  | none => dbOpts

/-- overrideCFOpts from opendb.go: merges cfOpts and appOpts, appOpts
takes precedence. -/
def overrideCFOpts (cfOpts : Options) (appOpts : AppOptions) : Options :=
  let cfOpts := match appOpts writeBufferSizeCFOptName with
    | some v => { cfOpts with writeBufferSize := castToUint64 (some v) }
    | none => cfOpts
  let cfOpts := match appOpts numLevelsCFOptName with
    | some v => { cfOpts with numLevels := castToInt (some v) }
    | none => cfOpts
  let cfOpts := match appOpts maxWriteBufferNumberCFOptName with
    | some v => { cfOpts with maxWriteBufferNumber := castToInt (some v) }
    | none => cfOpts
  let cfOpts := match appOpts minWriteBufferNumberToMergeCFOptName with
    | some v => { cfOpts with minWriteBufferNumberToMerge := castToInt (some v) }
    | none => cfOpts
  let cfOpts := match appOpts maxBytesForLevelBaseCFOptName with
    | some v => { cfOpts with maxBytesForLevelBase := castToUint64 (some v) }
    | none => cfOpts
  let cfOpts := match appOpts maxBytesForLevelMultiplierCFOptName with
    | some v => { cfOpts with maxBytesForLevelMultiplier := castToFloat64 (some v) }
    | none => cfOpts
  let cfOpts := match appOpts targetFileSizeBaseCFOptName with
    | some v => { cfOpts with targetFileSizeBase := castToUint64 (some v) }
    | none => cfOpts
  let cfOpts := match appOpts targetFileSizeMultiplierCFOptName with
    | some v => { cfOpts with targetFileSizeMultiplier := castToInt (some v) }
    | none => cfOpts
  let cfOpts := match appOpts level0FileNumCompactionTriggerCFOptName with
    | some v => { cfOpts with level0FileNumCompactionTrigger := castToInt (some v) }
    | none => cfOpts
  match appOpts level0SlowdownWritesTriggerCFOptName with
  | some v => { cfOpts with level0SlowdownWritesTrigger := castToInt (some v) }
  | none => cfOpts

/-- Read options record: the field settable through
readOptsFromAppOpts. -/
structure ReadOptions where
  asyncIo : Bool
deriving DecidableEq, Repr

/-- Engine-native default read options. -/
def NewDefaultReadOptions : ReadOptions :=
  { asyncIo := false }

/-- readOptsFromAppOpts from opendb.go. -/
def readOptsFromAppOpts (appOpts : AppOptions) : ReadOptions :=
  let ro := NewDefaultReadOptions
  match appOpts asyncIOReadOptName with
  | some v => { ro with asyncIo := castToBool (some v) }
  | none => ro

/-- bbtoFromAppOpts from opendb.go: default bbto with overrides applied
when explicitly present; block cache size and bits per key construct
new cache and filter objects, recorded here by their parameters. -/
def bbtoFromAppOpts (appOpts : AppOptions) : BlockBasedTableOptions :=
  let bbto := defaultBBTO
  let bbto := match appOpts blockCacheSizeBBTOOptName with
    | some v => { bbto with blockCacheSize := castToUint64 (some v) }
    | none => bbto
  let bbto := match appOpts bitsPerKeyBBTOOptName with
    | some v => { bbto with bloomFilterBitsPerKey := castToFloat64 (some v) }
    | none => bbto
  let bbto := match appOpts blockSizeBBTOOptName with
    | some v => { bbto with blockSize := castToInt (some v) }
    | none => bbto
  let bbto := match appOpts cacheIndexAndFilterBlocksBBTOOptName with
    | some v => { bbto with cacheIndexAndFilterBlocks := castToBool (some v) }
    | none => bbto
  let bbto := match appOpts pinL0FilterAndIndexBlocksInCacheBBTOOptName with
    | some v => { bbto with pinL0FilterAndIndexBlocksInCache := castToBool (some v) }
    | none => bbto
  match appOpts formatVersionBBTOOptName with
  | some v => { bbto with formatVersion := castToInt (some v) }
  | none => bbto

/-! ### Loading persisted options: LoadLatestOptions -/

/-- Result of the native grocksdb.LoadLatestOptions call: column family
names, per-family options, and database options, or an engine error
message. -/
structure LatestOptions where
  cfNames : List String
  cfOpts : List Options
  dbOpts : Options
deriving DecidableEq, Repr

/-- Outcome of the native option-file load, provided as input. -/
inductive GrocksLoadResult where
  | err (msg : String)
  | ok (latestOpts : LatestOptions)
deriving DecidableEq, Repr

/-- Errors surfaced by the open path. -/
inductive DBError where
  | unexpectedConfiguration
  | engineError (msg : String)
deriving DecidableEq, Repr

/-- LoadLatestOptions from opendb.go: a NotFound error from the native
load means the database does not exist yet and default tm-db options
are returned; any other native error propagates; a loaded file must
describe exactly one column family named default, otherwise
ErrUnexpectedConfiguration. The Go index access cfOpts[0] is rendered
total with a default head. -/
def LoadLatestOptions (loadResult : GrocksLoadResult) : Except DBError (Options × Options) :=
  match loadResult with
  | .err msg =>
    if goHasPrefix msg "NotFound: " then .ok (newDefaultOptions, newDefaultOptions)
    else .error (.engineError msg)
  | .ok latestOpts =>
    let cfNames := latestOpts.cfNames
    let cfOpts := latestOpts.cfOpts
    let ok := cfNames.length == 1 && cfNames.headD "" == DefaultColumnFamilyName
    if !ok then .error .unexpectedConfiguration
    else .ok (latestOpts.dbOpts, cfOpts.headD NewDefaultOptions)

/-! ### Opening the database -/

/-- The opened rocksdb handle: the configuration newRocksDBWithOptions
passes to the engine and the observability side effects it triggers
(statistics enabled on the engine options, metrics registration, the
reporting goroutine). Filesystem and engine-open effects are external
and modelled as succeeding. -/
structure RocksDBHandle where
  dbName : String
  dir : String
  dbOpts : Options
  cfOpts : Options
  readOpts : ReadOptions
  enableMetrics : Bool
  reportMetricsIntervalSecs : Int
  metricsRegistered : Bool
  reportLoopStarted : Bool
deriving DecidableEq, Repr

/-- newRocksDBWithOptions from opendb.go: enables statistics on the
engine options when metrics are enabled, opens the default column
family, registers metrics and launches the reporting goroutine when
metrics are enabled. -/
def newRocksDBWithOptions (dbName : String) (dir : String) (dbOpts : Options)
    (cfOpts : Options) (readOpts : ReadOptions) (enableMetrics : Bool)
    (reportMetricsIntervalSecs : Int) : RocksDBHandle :=
  let dbOpts := if enableMetrics then { dbOpts with statisticsEnabled := true } else dbOpts
  { dbName := dbName
    dir := dir
    dbOpts := dbOpts
    cfOpts := cfOpts
    readOpts := readOpts
    enableMetrics := enableMetrics
    reportMetricsIntervalSecs := reportMetricsIntervalSecs
    metricsRegistered := enableMetrics
    reportLoopStarted := enableMetrics }

/-- openRocksdb from opendb.go: loads existing options, overrides those
explicitly specified in appOpts, resolves the metrics settings, and
opens the database. The native option-file load outcome is an input. -/
def openRocksdb (loadResult : GrocksLoadResult) (dir : String) (dbName : String)
    (appOpts : AppOptions) : Except DBError RocksDBHandle :=
  match LoadLatestOptions loadResult with
  | .error e => .error e
  | .ok (dbOpts, cfOpts) =>
    let bbtoOpts := bbtoFromAppOpts appOpts
    let dbOpts := { dbOpts with blockBasedTableFactory := bbtoOpts }
    let cfOpts := { cfOpts with blockBasedTableFactory := bbtoOpts }
    let dbOpts := overrideDBOpts dbOpts appOpts
    let cfOpts := overrideCFOpts cfOpts appOpts
    let readOpts := readOptsFromAppOpts appOpts
    let enableMetrics := castToBool (appOpts enableMetricsOptName)
    let reportMetricsIntervalSecs := castToInt64 (appOpts reportMetricsIntervalSecsOptName)
    let reportMetricsIntervalSecs :=
      if reportMetricsIntervalSecs == 0 then defaultReportMetricsIntervalSecs
      else reportMetricsIntervalSecs
    .ok (newRocksDBWithOptions dbName dir dbOpts cfOpts readOpts enableMetrics
      reportMetricsIntervalSecs)

/-- Backend type of cometbft-db: a string. -/
def BackendType : Type := String

instance : DecidableEq BackendType := by
  unfold BackendType
  infer_instance

/-- The rocksdb backend name. -/
def RocksDBBackend : BackendType := ("rocksdb" : String)

/-- Result of OpenDB: either the rocksdb open path or a plain
dbm.NewDB call with the unchanged arguments. -/
inductive OpenDBResult where
  | rocks (result : Except DBError RocksDBHandle)
  | newDB (dbName : String) (backendType : BackendType) (dataDir : String)

/-- OpenDB from the rocksdb build of opendb.go: wraps appOpts in
rocksDBOptions so the database name is considered, takes the rocksdb
path only for the rocksdb backend, and otherwise returns exactly
dbm.NewDB(dbName, backendType, dataDir). -/
def OpenDB (loadResult : GrocksLoadResult) (appOpts : AppOptions) (dataDir : String)
    (dbName : String) (backendType : BackendType) : OpenDBResult :=
  let rocksDBOpts := newRocksDBOptions appOpts dbName
  if backendType = RocksDBBackend then
    .rocks (openRocksdb loadResult dataDir dbName rocksDBOpts.Get)
  else
    .newDB dbName backendType dataDir

/-- OpenDB from the build without the rocksdb tag: always a plain
dbm.NewDB call. -/
def OpenDBNonRocksdbBuild (_appOpts : AppOptions) (dataDir : String) (dbName : String)
    (backendType : BackendType) : OpenDBResult :=
  .newDB dbName backendType dataDir

/-! ### Field and key enumerations for the overlay frame law -/

/-- Every field of the Options record, for stating per-field frame
conditions. -/
inductive OptField where
  | fMaxOpenFiles
  | fMaxFileOpeningThreads
  | fTableCacheNumshardbits
  | fAllowMmapWrites
  | fAllowMmapReads
  | fUseFsync
  | fUseAdaptiveMutex
  | fBytesPerSync
  | fMaxBackgroundJobs
  | fWriteBufferSize
  | fNumLevels
  | fMaxWriteBufferNumber
  | fMinWriteBufferNumberToMerge
  | fMaxBytesForLevelBase
  | fMaxBytesForLevelMultiplier
  | fTargetFileSizeBase
  | fTargetFileSizeMultiplier
  | fLevel0FileNumCompactionTrigger
  | fLevel0SlowdownWritesTrigger
  | fBlockBasedTableFactory
  | fCreateIfMissing
  | fParallelism
  | fOptimizeLevelStyleCompactionBudget
  | fStatisticsEnabled
deriving DecidableEq, Repr

/-- Equality of two Options records at one field. -/
def fieldEq (f : OptField) (a b : Options) : Prop :=
  match f with
  | .fMaxOpenFiles => a.maxOpenFiles = b.maxOpenFiles
  | .fMaxFileOpeningThreads => a.maxFileOpeningThreads = b.maxFileOpeningThreads
  | .fTableCacheNumshardbits => a.tableCacheNumshardbits = b.tableCacheNumshardbits
  | .fAllowMmapWrites => a.allowMmapWrites = b.allowMmapWrites
  | .fAllowMmapReads => a.allowMmapReads = b.allowMmapReads
  | .fUseFsync => a.useFsync = b.useFsync
  | .fUseAdaptiveMutex => a.useAdaptiveMutex = b.useAdaptiveMutex
  | .fBytesPerSync => a.bytesPerSync = b.bytesPerSync
  | .fMaxBackgroundJobs => a.maxBackgroundJobs = b.maxBackgroundJobs
  | .fWriteBufferSize => a.writeBufferSize = b.writeBufferSize
  | .fNumLevels => a.numLevels = b.numLevels
  | .fMaxWriteBufferNumber => a.maxWriteBufferNumber = b.maxWriteBufferNumber
  | .fMinWriteBufferNumberToMerge => a.minWriteBufferNumberToMerge = b.minWriteBufferNumberToMerge
  | .fMaxBytesForLevelBase => a.maxBytesForLevelBase = b.maxBytesForLevelBase
  | .fMaxBytesForLevelMultiplier => a.maxBytesForLevelMultiplier = b.maxBytesForLevelMultiplier
  | .fTargetFileSizeBase => a.targetFileSizeBase = b.targetFileSizeBase
  | .fTargetFileSizeMultiplier => a.targetFileSizeMultiplier = b.targetFileSizeMultiplier
  | .fLevel0FileNumCompactionTrigger =>
    a.level0FileNumCompactionTrigger = b.level0FileNumCompactionTrigger
  | .fLevel0SlowdownWritesTrigger =>
    a.level0SlowdownWritesTrigger = b.level0SlowdownWritesTrigger
  | .fBlockBasedTableFactory => a.blockBasedTableFactory = b.blockBasedTableFactory
  | .fCreateIfMissing => a.createIfMissing = b.createIfMissing
  | .fParallelism => a.parallelism = b.parallelism
  | .fOptimizeLevelStyleCompactionBudget =>
    a.optimizeLevelStyleCompactionBudget = b.optimizeLevelStyleCompactionBudget
  | .fStatisticsEnabled => a.statisticsEnabled = b.statisticsEnabled

/-- The database-level option keys supported by overrideDBOpts. -/
inductive DBOptKey where
  | maxOpenFiles
  | maxFileOpeningThreads
  | tableCacheNumshardbits
  | allowMmapWrites
  | allowMmapReads
  | useFsync
  | useAdaptiveMutex
  | bytesPerSync
  | maxBackgroundJobs
deriving DecidableEq, Repr

/-- Configuration key name of a database-level option. -/
def DBOptKey.keyName : DBOptKey → String
  | .maxOpenFiles => maxOpenFilesDBOptName
  | .maxFileOpeningThreads => maxFileOpeningThreadsDBOptName
  | .tableCacheNumshardbits => tableCacheNumshardbitsDBOptName
  | .allowMmapWrites => allowMMAPWritesDBOptName
  | .allowMmapReads => allowMMAPReadsDBOptName
  | .useFsync => useFsyncDBOptName
  | .useAdaptiveMutex => useAdaptiveMutexDBOptName
  | .bytesPerSync => bytesPerSyncDBOptName
  | .maxBackgroundJobs => maxBackgroundJobsDBOptName

/-- Options field written by a database-level option key. -/
def DBOptKey.field : DBOptKey → OptField
  | .maxOpenFiles => .fMaxOpenFiles
  | .maxFileOpeningThreads => .fMaxFileOpeningThreads
  | .tableCacheNumshardbits => .fTableCacheNumshardbits
  | .allowMmapWrites => .fAllowMmapWrites
  | .allowMmapReads => .fAllowMmapReads
  | .useFsync => .fUseFsync
  | .useAdaptiveMutex => .fUseAdaptiveMutex
  | .bytesPerSync => .fBytesPerSync
  | .maxBackgroundJobs => .fMaxBackgroundJobs

/-- The column-family option keys supported by overrideCFOpts. -/
inductive CFOptKey where
  | writeBufferSize
  | numLevels
  | maxWriteBufferNumber
  | minWriteBufferNumberToMerge
  | maxBytesForLevelBase
  | maxBytesForLevelMultiplier
  | targetFileSizeBase
  | targetFileSizeMultiplier
  | level0FileNumCompactionTrigger
  | level0SlowdownWritesTrigger
deriving DecidableEq, Repr

/-- Configuration key name of a column-family option. -/
def CFOptKey.keyName : CFOptKey → String
  | .writeBufferSize => writeBufferSizeCFOptName
  | .numLevels => numLevelsCFOptName
  | .maxWriteBufferNumber => maxWriteBufferNumberCFOptName
  | .minWriteBufferNumberToMerge => minWriteBufferNumberToMergeCFOptName
  | .maxBytesForLevelBase => maxBytesForLevelBaseCFOptName
  | .maxBytesForLevelMultiplier => maxBytesForLevelMultiplierCFOptName
  | .targetFileSizeBase => targetFileSizeBaseCFOptName
  | .targetFileSizeMultiplier => targetFileSizeMultiplierCFOptName
  | .level0FileNumCompactionTrigger => level0FileNumCompactionTriggerCFOptName
  | .level0SlowdownWritesTrigger => level0SlowdownWritesTriggerCFOptName

/-- Options field written by a column-family option key. -/
def CFOptKey.field : CFOptKey → OptField
  | .writeBufferSize => .fWriteBufferSize
  | .numLevels => .fNumLevels
  | .maxWriteBufferNumber => .fMaxWriteBufferNumber
  | .minWriteBufferNumberToMerge => .fMinWriteBufferNumberToMerge
  | .maxBytesForLevelBase => .fMaxBytesForLevelBase
  | .maxBytesForLevelMultiplier => .fMaxBytesForLevelMultiplier
  | .targetFileSizeBase => .fTargetFileSizeBase
  | .targetFileSizeMultiplier => .fTargetFileSizeMultiplier
  | .level0FileNumCompactionTrigger => .fLevel0FileNumCompactionTrigger
  | .level0SlowdownWritesTrigger => .fLevel0SlowdownWritesTrigger

/-- Option source defined at exactly one key. -/
def singleSrc (key : String) (v : GoValue) : AppOptions :=
  fun k => if k = key then some v else none

/-- Decides whether an Except value is ok. -/
def isOkE {ε α : Type _} : Except ε α → Bool
  | .ok _ => true
  | .error _ => false

/-- The goleveldb backend name of cometbft-db. -/
def GoLevelDBBackend : BackendType := ("goleveldb" : String)

/-! ### Theorems for the claims -/

/-- Claim C1: for every dbName and key, the Config Resolver Get returns
the option source value at the database-specific key
rocksdb.dbName.key whenever that value is non-absent, regardless of
what the fallback key holds; otherwise it returns the option source
value at the fallback key rocksdb.key, which may itself be absent; no
error is raised for absent keys. -/
theorem c1_config_resolver_precedence (appOpts : AppOptions) (dbName key : String) :
    (∀ v : GoValue, appOpts ("rocksdb." ++ dbName ++ "." ++ key) = some v →
      (newRocksDBOptions appOpts dbName).Get key = some v) ∧
    (appOpts ("rocksdb." ++ dbName ++ "." ++ key) = none →
      (newRocksDBOptions appOpts dbName).Get key = appOpts ("rocksdb." ++ key)) := by
  constructor
  · intro v h
    simp [rocksDBOptions.Get, newRocksDBOptions, h]
  · intro h
    simp [rocksDBOptions.Get, newRocksDBOptions, h]

/-- Option source for the C1 witness: both the database-specific and
the fallback key hold values for blockstore, only the fallback exists
for state. -/
def c1SampleOpts : AppOptions := fun k =>
  if k = "rocksdb.blockstore.max-open-files" then some (.goInt 16384)
  else if k = "rocksdb.max-open-files" then some (.goInt 4096)
  else none

/-- Witness for C1 at a concrete option source: the database-specific
value wins for blockstore, the fallback is used for state. -/
theorem c1_config_resolver_precedence_witness :
    (newRocksDBOptions c1SampleOpts "blockstore").Get "max-open-files" =
      some (.goInt 16384) ∧
    (newRocksDBOptions c1SampleOpts "state").Get "max-open-files" =
      some (.goInt 4096) := by
  constructor
  · exact (c1_config_resolver_precedence c1SampleOpts "blockstore" "max-open-files").1
      (.goInt 16384) (by decide)
  · have h := (c1_config_resolver_precedence c1SampleOpts "state" "max-open-files").2
      (by decide)
    rw [h]
    decide

/-- Claim C9: metrics registration is idempotent: the first call
initializes the process-wide registry, and every subsequent call is a
no-op that leaves the already initialized registry unchanged. -/
theorem c9_register_metrics_idempotent :
    registerMetrics none = some newMetricsInstance ∧
    (∀ m : Metrics, registerMetrics (some m) = some m) ∧
    (∀ st : Option Metrics, registerMetrics (registerMetrics st) = registerMetrics st) := by
  refine ⟨rfl, fun m => rfl, fun st => ?_⟩
  cases st <;> rfl

/-- Claim C10: for every backendType other than the rocksdb backend,
OpenDB skips the whole rocksdb configuration and metrics pipeline and
returns exactly dbm.NewDB(dbName, backendType, dataDir); the build
without the rocksdb tag always does so. -/
theorem c10_non_rocksdb_backend (loadResult : GrocksLoadResult) (appOpts : AppOptions)
    (dataDir dbName : String) (backendType : BackendType)
    (hbt : backendType ≠ RocksDBBackend) :
    OpenDB loadResult appOpts dataDir dbName backendType =
      .newDB dbName backendType dataDir ∧
    OpenDBNonRocksdbBuild appOpts dataDir dbName backendType =
      .newDB dbName backendType dataDir := by
  constructor
  · simp [OpenDB, hbt]
  · rfl

/-- Witness for C10 at the goleveldb backend. -/
theorem c10_non_rocksdb_backend_witness :
    OpenDB (.err "x") (fun _ => none) "data" "blockstore" GoLevelDBBackend =
      .newDB "blockstore" GoLevelDBBackend "data" := by
  exact (c10_non_rocksdb_backend (.err "x") (fun _ => none) "data" "blockstore"
    GoLevelDBBackend (by decide)).1

/-- Claim C6: on open of an existing database, an absent
configuration-options file (a NotFound native error) yields factory
defaults with no error; a present file that does not describe exactly
one column family named default fails with ErrUnexpectedConfiguration. -/
theorem c6_load_latest_options (msg : String) (latestOpts : LatestOptions) :
    (goHasPrefix msg "NotFound: " = true →
      LoadLatestOptions (.err msg) = .ok (newDefaultOptions, newDefaultOptions)) ∧
    (latestOpts.cfNames ≠ [DefaultColumnFamilyName] →
      LoadLatestOptions (.ok latestOpts) = .error .unexpectedConfiguration) := by
  constructor
  · intro h
    simp [LoadLatestOptions, h]
  · intro h
    rcases hcf : latestOpts.cfNames with _ | ⟨a, _ | ⟨b, t⟩⟩
    · simp [LoadLatestOptions, hcf]
    · have ha : ¬(a = DefaultColumnFamilyName) := by
        intro heq
        apply h
        rw [hcf, heq]
      simp [LoadLatestOptions, hcf, ha]
    · simp [LoadLatestOptions, hcf]

/-- Persisted configuration with two column families, for the C6
witness. -/
def c6BadLatest : LatestOptions :=
  { cfNames := ["default", "extra"]
    cfOpts := [NewDefaultOptions, NewDefaultOptions]
    dbOpts := NewDefaultOptions }

/-- Empty persisted configuration placeholder for the C6 witness. -/
def c6EmptyLatest : LatestOptions :=
  { cfNames := [], cfOpts := [], dbOpts := NewDefaultOptions }

/-- Witness for C6: a NotFound error returns the defaults, and a file
with two column families is rejected. -/
theorem c6_load_latest_options_witness :
    LoadLatestOptions (.err "NotFound: no options file") =
      .ok (newDefaultOptions, newDefaultOptions) ∧
    LoadLatestOptions (.ok c6BadLatest) = .error .unexpectedConfiguration := by
  constructor
  · exact (c6_load_latest_options "NotFound: no options file" c6EmptyLatest).1 (by decide)
  · exact (c6_load_latest_options "" c6BadLatest).2 (by decide)

/-- The nine metric subsystems. -/
def subsystemsList : List String :=
  ["key", "file", "memory", "cache", "detailed_cache", "latency", "stall", "filter", "lsm"]

/-- Claim C4 counterexample: the registered gauges are not published
under the namespace storage_stats_v2; already the first registered
gauge carries a different namespace. -/
theorem c4_counterexample :
    (registeredGauges.all (fun g => g.Namespace == "storage_stats_v2")) = false ∧
    (registeredGauges.head?.map (fun g => g.Namespace)) = some "rocksdb_v2" := by
  constructor
  · decide
  · decide

/-- Claim C4 amended: every metric the reporter publishes is registered
under the namespace rocksdb_v2, grouped into the subsystems key, file,
memory, cache, detailed_cache, latency, stall, filter, and lsm, with
each gauge labeled with db_name; every one of the nine subsystems is
inhabited. -/
theorem c4_amended_metric_schema :
    (registeredGauges.all (fun g =>
      g.Namespace == "rocksdb_v2" && g.labels == [dbNameMetricLabelName] &&
      subsystemsList.contains g.Subsystem)) = true ∧
    (subsystemsList.all (fun s =>
      registeredGauges.any (fun g => g.Subsystem == s))) = true := by
  constructor
  · decide
  · decide

/-- Claim C2: a statistics blob with one malformed line interleaved
among well-formed lines does not abort parsing: the parse result holds
exactly the entries of the other lines, the malformed line alone is
excluded, and the tick still publishes with the remaining entries. -/
theorem c2_parser_skips_malformed_line (ls₁ ls₂ : List String) (bad : String)
    (props : properties) (m : Metrics) (dbName : String)
    (hbad : parseSerializedStat bad = none)
    (hsplit : goSplit props.OptionsStatistics '\n' = ls₁ ++ bad :: ls₂) :
    parseSerializedStats props.OptionsStatistics =
      .ok (parseStatsLines ls₁ ++ parseStatsLines ls₂) ∧
    reportMetricsTick (some m) dbName (.ok props) =
      some (m.report dbName props (parseStatsLines ls₁ ++ parseStatsLines ls₂)) := by
  have hparse : parseStatsLines (goSplit props.OptionsStatistics '\n') =
      parseStatsLines ls₁ ++ parseStatsLines ls₂ := by
    rw [hsplit]
    simp [parseStatsLines, List.filterMap_append, List.filterMap_cons, hbad]
  constructor
  · rw [parseSerializedStats, hparse]
  · simp [reportMetricsTick, getPropsAndStats, propsLoader.load, parseSerializedStats,
      statLoader.load, Metrics.report, hparse]

/-- Properties snapshot whose statistics blob has a malformed line
between two well-formed counter lines, for the C2 witness. -/
def c2Props : properties :=
  { EstimateNumKeys := 0
    BlockCacheUsage := 0
    EstimateTableReadersMem := 0
    CurSizeAllMemTables := 0
    BlockCachePinnedUsage := 0
    OptionsStatistics :=
      "number.keys.written COUNT : 42\ngarbage line\nnumber.keys.read COUNT : 7" }

/-- Witness for C2 at a concrete blob: both well-formed entries are
kept, the malformed middle line is dropped, and the tick publishes. -/
theorem c2_parser_skips_malformed_line_witness :
    parseSerializedStats c2Props.OptionsStatistics =
      .ok [("number.keys.written", .counter 42), ("number.keys.read", .counter 7)] ∧
    reportMetricsTick (some newMetricsInstance) "application" (.ok c2Props) =
      some (Metrics.report newMetricsInstance "application" c2Props
        [("number.keys.written", .counter 42), ("number.keys.read", .counter 7)]) := by
  obtain ⟨h1, h2⟩ := c2_parser_skips_malformed_line
    ["number.keys.written COUNT : 42"] ["number.keys.read COUNT : 7"] "garbage line"
    c2Props newMetricsInstance "application" (by decide) (by decide)
  constructor
  · rw [h1]
    rfl
  · rw [h2]
    rfl

/-- Claim C5: a loader or parse failure on tick N skips that tick
entirely with no publication and no retry, ticks are independent (the
publication at every index is a function of that index's sample
alone), a successful sample at tick N+1 publishes fresh data, and the
ticker period is the configured interval whatever the samples were. -/
theorem c5_reporter_tick_isolation (m : Metrics) (dbName : String) (interval : Int)
    (samples : List (Except String properties)) (n : Nat) (e : String) (p : properties) :
    ((reportMetrics (some m) dbName interval samples).2[n]? =
      (samples[n]?).map (reportMetricsTick (some m) dbName)) ∧
    (samples[n]? = some (.error e) →
      (reportMetrics (some m) dbName interval samples).2[n]? = some none) ∧
    (samples[n + 1]? = some (.ok p) →
      (reportMetrics (some m) dbName interval samples).2[n + 1]? =
        some (some (m.report dbName p
          (parseStatsLines (goSplit p.OptionsStatistics '\n'))))) ∧
    (reportMetrics (some m) dbName interval samples).1 = interval := by
  refine ⟨?_, ?_, ?_, rfl⟩
  · simp [reportMetrics]
  · intro h
    simp [reportMetrics, h, reportMetricsTick, getPropsAndStats, propsLoader.load]
  · intro h
    simp [reportMetrics, h, reportMetricsTick, getPropsAndStats, propsLoader.load,
      parseSerializedStats, statLoader.load, Metrics.report]

/-- Fresh properties snapshot read on the second tick of the C5
witness. -/
def c5Props : properties :=
  { EstimateNumKeys := 11
    BlockCacheUsage := 12
    EstimateTableReadersMem := 13
    CurSizeAllMemTables := 14
    BlockCachePinnedUsage := 15
    OptionsStatistics := "number.keys.written COUNT : 5" }

/-- Engine responses for the C5 witness: tick 0 fails to read
properties, tick 1 succeeds. -/
def c5Samples : List (Except String properties) :=
  [.error "property unavailable", .ok c5Props]

/-- Witness for C5 at a concrete sample list: the failing tick 0
publishes nothing and the succeeding tick 1 publishes fresh data. -/
theorem c5_reporter_tick_isolation_witness :
    (reportMetrics (some newMetricsInstance) "application" 15 c5Samples).2[0]? =
      some none ∧
    (reportMetrics (some newMetricsInstance) "application" 15 c5Samples).2[1]? =
      some (some (Metrics.report newMetricsInstance "application" c5Props
        (parseStatsLines (goSplit c5Props.OptionsStatistics '\n')))) ∧
    (reportMetrics (some newMetricsInstance) "application" 15 c5Samples).1 = 15 := by
  obtain ⟨-, h2, h3, h4⟩ := c5_reporter_tick_isolation newMetricsInstance "application" 15
    c5Samples 0 "property unavailable" c5Props
  exact ⟨h2 (by rfl), h3 (by rfl), h4⟩

/-- Helper: the interval recorded on a successfully opened handle is
the cast of the option value, replaced by the default when that cast is
zero. -/
theorem openRocksdb_interval_eq (loadResult : GrocksLoadResult) (dir dbName : String)
    (appOpts : AppOptions) (h : RocksDBHandle)
    (hopen : openRocksdb loadResult dir dbName appOpts = .ok h) :
    h.reportMetricsIntervalSecs =
      if castToInt64 (appOpts reportMetricsIntervalSecsOptName) == 0 then 15
      else castToInt64 (appOpts reportMetricsIntervalSecsOptName) := by
  cases hl : LoadLatestOptions loadResult with
  | error e =>
    rw [openRocksdb, hl] at hopen
    cases hopen
  | ok pair =>
    obtain ⟨dbo, cfo⟩ := pair
    rw [openRocksdb, hl] at hopen
    simp only [Except.ok.injEq] at hopen
    rw [← hopen]
    simp [newRocksDBWithOptions, defaultReportMetricsIntervalSecs]

/-- Claim C8: if the option source value for
report-metrics-interval-secs is absent or coerces to zero, the
reporting interval on the opened handle is 15 seconds; otherwise it is
the configured number of seconds. -/
theorem c8_report_interval_default (loadResult : GrocksLoadResult) (dir dbName : String)
    (appOpts : AppOptions) (h : RocksDBHandle)
    (hopen : openRocksdb loadResult dir dbName appOpts = .ok h) :
    (appOpts reportMetricsIntervalSecsOptName = none →
      h.reportMetricsIntervalSecs = 15) ∧
    (∀ v : GoValue, appOpts reportMetricsIntervalSecsOptName = some v →
      castToInt64 (some v) = 0 → h.reportMetricsIntervalSecs = 15) ∧
    (∀ v : GoValue, appOpts reportMetricsIntervalSecsOptName = some v →
      castToInt64 (some v) ≠ 0 →
      h.reportMetricsIntervalSecs = castToInt64 (some v)) := by
  have hint := openRocksdb_interval_eq loadResult dir dbName appOpts h hopen
  refine ⟨?_, ?_, ?_⟩
  · intro hv
    rw [hint, hv]
    rfl
  · intro v hv hz
    rw [hint, hv, hz]
    rfl
  · intro v hv hnz
    rw [hint, hv]
    simp [hnz]

/-- Option source for the C8 witness: the interval is configured only
for the blockstore database. -/
def c8Src : AppOptions :=
  fun k => if k = reportMetricsIntervalSecsOptName then some (.goInt 30) else none

/-- Witness for C8: with no configured interval the handle carries 15
seconds, with a configured interval of 30 it carries 30. -/
theorem c8_report_interval_default_witness :
    (Except.map (fun h => h.reportMetricsIntervalSecs)
      (openRocksdb (.err "NotFound: x") "data" "application" (fun _ => none))) = .ok 15 ∧
    (Except.map (fun h => h.reportMetricsIntervalSecs)
      (openRocksdb (.err "NotFound: x") "data" "application" c8Src)) = .ok 30 := by
  constructor
  · cases hE : openRocksdb (.err "NotFound: x") "data" "application" (fun _ => none) with
    | error e =>
      have hW : isOkE (openRocksdb (.err "NotFound: x") "data" "application"
          (fun _ => none)) = true := by decide
      rw [hE] at hW
      cases hW
    | ok h =>
      have h15 := (c8_report_interval_default (.err "NotFound: x") "data" "application"
        (fun _ => none) h hE).1 rfl
      simp [Except.map, h15]
  · cases hE : openRocksdb (.err "NotFound: x") "data" "application" c8Src with
    | error e =>
      have hW : isOkE (openRocksdb (.err "NotFound: x") "data" "application" c8Src)
          = true := by decide
      rw [hE] at hW
      cases hW
    | ok h =>
      have h30 := (c8_report_interval_default (.err "NotFound: x") "data" "application"
        c8Src h hE).2.2 (.goInt 30) (by rfl) (by decide)
      simp [Except.map, h30]
      rfl

/-- Option source for the C3 counterexample: a value that cannot be
coerced to an integer sits at the max-open-files key. -/
def c3Src : AppOptions :=
  fun k => if k = maxOpenFilesDBOptName then some (.goString "not-a-number") else none

/-- Claim C3 counterexample: a present but non-coercible override value
does not abort the open sequence and is not surfaced as an error; the
cast silently yields zero, the zero is applied to the bundle, and the
open path still returns an opened handle. -/
theorem c3_counterexample :
    overrideDBOpts newDefaultOptions c3Src =
      { newDefaultOptions with maxOpenFiles := 0 } ∧
    isOkE (openRocksdb (.err "NotFound: no options file") "data" "application" c3Src)
      = true := by
  constructor
  · decide
  · decide

/-- Claim C3 amended: a value present but not coercible to the target
type is not an error: the permissive cast maps it to the zero value of
the target type, that zero value is applied as the override, and the
open sequence proceeds whenever loading the persisted options
succeeded. -/
theorem c3_amended_overlay_never_fails (loadResult : GrocksLoadResult)
    (dir dbName : String) (appOpts : AppOptions) (pair : Options × Options)
    (hload : LoadLatestOptions loadResult = .ok pair)
    (o : Options) (s : String) (hs : goParseInt s = none) :
    isOkE (openRocksdb loadResult dir dbName appOpts) = true ∧
    overrideDBOpts o (singleSrc maxOpenFilesDBOptName (.goString s)) =
      { o with maxOpenFiles := 0 } := by
  constructor
  · obtain ⟨dbo, cfo⟩ := pair
    rw [openRocksdb, hload]
    rfl
  · simp +decide [overrideDBOpts, singleSrc, castToInt, hs,
      maxOpenFilesDBOptName, maxFileOpeningThreadsDBOptName, tableCacheNumshardbitsDBOptName,
      allowMMAPWritesDBOptName, allowMMAPReadsDBOptName, useFsyncDBOptName,
      useAdaptiveMutexDBOptName, bytesPerSyncDBOptName, maxBackgroundJobsDBOptName]

/-- Witness for C3 amended: with the options file absent and the
non-coercible string at max-open-files, open succeeds and the override
writes zero. -/
theorem c3_amended_overlay_never_fails_witness :
    isOkE (openRocksdb (.err "NotFound: x") "data" "application" c3Src) = true ∧
    overrideDBOpts NewDefaultOptions
        (singleSrc maxOpenFilesDBOptName (.goString "not-a-number")) =
      { NewDefaultOptions with maxOpenFiles := 0 } := by
  exact c3_amended_overlay_never_fails (.err "NotFound: x") "data" "application" c3Src
    (newDefaultOptions, newDefaultOptions) (by rfl) NewDefaultOptions "not-a-number"
    (by decide)

/-- Claim C7: applying the overlay with an option source in which every
lookup is absent returns the bundle unchanged, and applying an override
for a single supported key changes only the field mapped to that key,
leaving every other field of the bundle identical to the input. -/
theorem c7_overlay_identity_and_frame (o : Options) :
    (∀ appOpts : AppOptions, (∀ k, appOpts k = none) →
      overrideDBOpts o appOpts = o ∧ overrideCFOpts o appOpts = o) ∧
    (∀ (k : DBOptKey) (v : GoValue) (f : OptField), f ≠ k.field →
      fieldEq f (overrideDBOpts o (singleSrc k.keyName v)) o) ∧
    (∀ (k : CFOptKey) (v : GoValue) (f : OptField), f ≠ k.field →
      fieldEq f (overrideCFOpts o (singleSrc k.keyName v)) o) := by
  refine ⟨?_, ?_, ?_⟩
  · intro appOpts h
    constructor
    · simp [overrideDBOpts, h]
    · simp [overrideCFOpts, h]
  · intro k v f hf
    cases k <;> cases f <;>
      simp_all +decide [overrideDBOpts, singleSrc, fieldEq, DBOptKey.field, DBOptKey.keyName,
        maxOpenFilesDBOptName, maxFileOpeningThreadsDBOptName, tableCacheNumshardbitsDBOptName,
        allowMMAPWritesDBOptName, allowMMAPReadsDBOptName, useFsyncDBOptName,
        useAdaptiveMutexDBOptName, bytesPerSyncDBOptName, maxBackgroundJobsDBOptName]
  · intro k v f hf
    cases k <;> cases f <;>
      simp_all +decide [overrideCFOpts, singleSrc, fieldEq, CFOptKey.field, CFOptKey.keyName,
        writeBufferSizeCFOptName, numLevelsCFOptName, maxWriteBufferNumberCFOptName,
        minWriteBufferNumberToMergeCFOptName, maxBytesForLevelBaseCFOptName,
        maxBytesForLevelMultiplierCFOptName, targetFileSizeBaseCFOptName,
        targetFileSizeMultiplierCFOptName, level0FileNumCompactionTriggerCFOptName,
        level0SlowdownWritesTriggerCFOptName]

/-- Witness for C7 at concrete inputs: the empty source leaves the
default bundle unchanged, and an override at max-open-files leaves the
num-levels field of the bundle unchanged. -/
theorem c7_overlay_identity_and_frame_witness :
    overrideDBOpts newDefaultOptions (fun _ => none) = newDefaultOptions ∧
    overrideCFOpts newDefaultOptions (fun _ => none) = newDefaultOptions ∧
    fieldEq .fNumLevels
      (overrideDBOpts newDefaultOptions
        (singleSrc maxOpenFilesDBOptName (.goInt 16384))) newDefaultOptions := by
  obtain ⟨hid, hdb, -⟩ := c7_overlay_identity_and_frame newDefaultOptions
  obtain ⟨h1, h2⟩ := hid (fun _ => none) (fun k => rfl)
  exact ⟨h1, h2, hdb .maxOpenFiles (.goInt 16384) .fNumLevels (by decide)⟩

end Opendb
